import Mathlib

/-!
Shallow embedding of the chat front-end (`Chat.tsx`, `Source.tsx`, `page.tsx`):
the conversation controller (message list, input, busy flag, `handleSubmit`)
and the source resolver (fetch states and the loaded card), together with
theorems about the behaviour of these operations.
-/

/-- Role of a chat message; the source uses the union type `"user" | "assistant"`. -/
inductive Role
  | user
  | assistant
  deriving DecidableEq

/-- Reference to a source object carried on an assistant message
(`{ object_id: string; collection: string }` in `Chat.tsx`). -/
structure SourceRef where
  object_id : String
  collection : String
  deriving DecidableEq

/-- The `Message` interface of `Chat.tsx`: id, role, content, optional sources. -/
structure Message where
  id : String
  role : Role
  content : String
  sources : Option (List SourceRef) := none
  deriving DecidableEq

/-- Component state of `Chat`: the `messages`, `input` and `isLoading` hooks. -/
structure ChatState where
  messages : List Message
  input : String
  isLoading : Bool
  deriving DecidableEq

/-- Wire format of one history entry in the body sent to `/api/chat`: each
message is reduced to role and content (`Chat.tsx` lines 56-59). -/
structure WireMessage where
  role : Role
  content : String
  deriving DecidableEq

/-- Body of the POST request to `/api/chat`. -/
structure ChatRequest where
  messages : List WireMessage
  deriving DecidableEq

/-- Parsed JSON body of a `/api/chat` response; both fields may be absent. -/
structure ChatResponse where
  response : Option String := none
  sources : Option (List SourceRef) := none
  deriving DecidableEq

/-- Outcome of the fetch to `/api/chat` as observed by `handleSubmit`: the
fetch can throw (network failure), resolve with a non-ok status (which the
code turns into a thrown error), or succeed with a JSON body. -/
inductive FetchOutcome
  | networkError
  | httpError
  | success (data : ChatResponse)
  deriving DecidableEq

/-- Model of `String.prototype.trim` as used on the input (`input.trim()`):
strips leading and trailing whitespace. It is defined structurally over the
character list so that concrete instances evaluate inside the kernel. -/
def jsTrim (s : String) : String :=
  ⟨((s.data.dropWhile Char.isWhitespace).reverse.dropWhile Char.isWhitespace).reverse⟩

/-- Meaning of the JavaScript expression `s || dflt` for an optional string
field: the default is taken when the field is absent or the empty string,
both of which are falsy. -/
def jsOrString : Option String → String → String
  | some s, dflt => if s = "" then dflt else s
  | none, dflt => dflt

/-- Fallback assistant content used when `data.response` is falsy
(`Chat.tsx` line 72). -/
def noAnswerFallback : String := "I received your message but got no answer."

/-- Fixed apology content appended on the failure path (`Chat.tsx` line 82). -/
def apologyMessage : String := "Sorry, something went wrong. Please try again."

/-- The user message built at `Chat.tsx` lines 36-40: the id is
`Date.now().toString()` and the content the trimmed input. -/
def mkUserMessage (now : Nat) (input : String) : Message :=
  { id := toString now, role := .user, content := jsTrim input, sources := none }

/-- The assistant message built on the success path (`Chat.tsx` lines 69-74):
the id is `(Date.now() + 1).toString()` read at response time, the content
falls back when `data.response` is falsy, and the sources default to the
empty list. -/
def mkAssistantMessage (now2 : Nat) (data : ChatResponse) : Message :=
  { id := toString (now2 + 1), role := .assistant,
    content := jsOrString data.response noAnswerFallback,
    sources := some (data.sources.getD []) }

/-- The assistant message built on the failure path (`Chat.tsx` lines 79-83):
fixed apology content and no sources field. -/
def mkErrorMessage (now2 : Nat) : Message :=
  { id := toString (now2 + 1), role := .assistant,
    content := apologyMessage, sources := none }

/-- Guard at `Chat.tsx` line 34: the submission is a no-op when the trimmed
input is empty (falsy) or a request is already in flight. -/
def submitRejected (st : ChatState) : Bool :=
  jsTrim st.input = "" || st.isLoading

/-- Reduction of the history to the backend wire format (`Chat.tsx` lines
56-59): each message keeps exactly its role and content. -/
def toWire (ms : List Message) : ChatRequest :=
  { messages := ms.map fun m => { role := m.role, content := m.content } }

/-- Phase of `handleSubmit` up to issuing the fetch (`Chat.tsx` lines 34-61):
on acceptance it appends the user message, clears the input, sets the busy
flag, and issues one request whose body is the whole updated history with
each entry reduced to role and content. -/
def submitStart (st : ChatState) (now : Nat) : ChatState × Option ChatRequest :=
  if submitRejected st then (st, none)
  else
    let userMessage := mkUserMessage now st.input
    let newMessages := st.messages ++ [userMessage]
    ({ messages := newMessages, input := "", isLoading := true },
     some (toWire newMessages))

/-- Phase of `handleSubmit` after the fetch settles (`Chat.tsx` lines 63-87):
the assistant message is appended on success, the apology message on any
failure, and the `finally` block clears the busy flag on both paths. -/
def submitFinish (st : ChatState) (now2 : Nat) (outcome : FetchOutcome) : ChatState :=
  match outcome with
  | .success data =>
      { st with messages := st.messages ++ [mkAssistantMessage now2 data], isLoading := false }
  | _ =>
      { st with messages := st.messages ++ [mkErrorMessage now2], isLoading := false }

/-- One complete run of `handleSubmit`, from the form event to the settled
fetch. `now` is the `Date.now()` reading taken when building the user message
and `now2` the reading taken at response time. Returns the final state and
the request issued, if any. -/
def handleSubmit (st : ChatState) (now now2 : Nat) (outcome : FetchOutcome) :
    ChatState × Option ChatRequest :=
  match submitStart st now with
  | (st1, none) => (st1, none)
  | (st1, some req) => (submitFinish st1 now2 outcome, some req)

example :
    (handleSubmit ⟨[], "hi", false⟩ 5 6 (.success ⟨some "ok", none⟩)).1.messages.map
      Message.content = ["hi", "ok"] := by decide

example :
    (handleSubmit ⟨[], "  ", false⟩ 5 6 .networkError).1.messages = [] := by decide

/-- User-visible operations that change the state of the `Chat` component:
typing in the input box (`setInput` from the `onChange` handler) and one
complete run of `handleSubmit`. -/
inductive ChatAction
  | typeInput (s : String)
  | submit (now now2 : Nat) (outcome : FetchOutcome)

/-- State transition of the `Chat` component under one operation. -/
def chatStep (st : ChatState) : ChatAction → ChatState
  | .typeInput s => { st with input := s }
  | .submit now now2 outcome => (handleSubmit st now now2 outcome).1

/-- Initial state of the `Chat` component (`Chat.tsx` lines 19-21): empty
message list, empty input, not loading. -/
def chatInit : ChatState := { messages := [], input := "", isLoading := false }

/-- One complete user interaction in a session: the user types `text` into the
input box, submits while the clock reads `tSubmit`, and the request settles
with `outcome` while the clock reads `tResp`. -/
structure SubmitEvent where
  text : String
  tSubmit : Nat
  tResp : Nat
  outcome : FetchOutcome

/-- State change produced by one interaction: typing replaces the input, then
`handleSubmit` runs to completion. -/
def runEvent (st : ChatState) (e : SubmitEvent) : ChatState :=
  (handleSubmit { st with input := e.text } e.tSubmit e.tResp e.outcome).1

/-- State of a whole session: the initial `Chat` state driven through a
sequence of interactions. -/
def runSession (evs : List SubmitEvent) : ChatState := evs.foldl runEvent chatInit

/-- Parsed JSON body of a `/api/sources` response (the `SourceData` interface
of `Source.tsx`); every display field is optional. -/
structure SourceData where
  title : Option String := none
  date : Option String := none
  abstract : Option String := none
  pdf_url : Option String := none
  chunk_text : Option String := none
  pdf_title : Option String := none
  pdf_date : Option String := none
  deriving DecidableEq

/-- Outcome of the `/api/sources` fetch as observed by `fetchSource`: the
fetch can throw, resolve with a non-ok status (turned into a thrown error at
line 36), or succeed with a JSON body, which may itself be the absent value. -/
inductive SourceFetchOutcome
  | networkError
  | httpError
  | success (result : Option SourceData)
  deriving DecidableEq

/-- Component state of `Source`: the `data`, `loading` and `error` hooks. -/
structure SourceState where
  data : Option SourceData
  loading : Bool
  error : Bool
  deriving DecidableEq

/-- Initial `Source` state (`Source.tsx` lines 21-23): no data, loading, no
error flag. -/
def sourceInit : SourceState := { data := none, loading := true, error := false }

/-- State after `fetchSource` settles (`Source.tsx` lines 25-48): a thrown
error or a non-ok status sets the error flag and leaves the data absent, a
parsed body is stored in `data`, and the `finally` block clears `loading` on
every path. -/
def fetchSource (outcome : SourceFetchOutcome) : SourceState :=
  match outcome with
  | .networkError => { data := none, loading := false, error := true }
  | .httpError => { data := none, loading := false, error := true }
  | .success result => { data := result, loading := false, error := false }

/-- Data-dependent fields of the loaded card (`Source.tsx` lines 66-107):
the mode label, the date shown in the corner, the heading with its fallback,
the body text, and the optional link target. -/
structure SourceCard where
  label : String
  dateShown : Option String
  heading : String
  bodyText : String
  linkUrl : Option String
  deriving DecidableEq

/-- Meaning of JavaScript conditional rendering `{x && <node/>}` for an
optional string `x`: the node appears only when the value is present and
nonempty (truthy). -/
def truthyField : Option String → Option String
  | some s => if s = "" then none else some s
  | none => none

/-- The loaded card of `Source` for a given collection and data: `isChunk`
compares the collection with the sentinel and selects which response fields
feed the card (lines 66-71), the label follows `isChunk` (line 79), the date
and the link render only when truthy (lines 82 and 98), the heading falls
back when the selected title is falsy (line 91), and the body renders the
selected content or blank (line 95). -/
def renderCard (collection : String) (data : SourceData) : SourceCard :=
  let isChunk := collection = "PDFchunks1"
  let title := if isChunk then data.pdf_title else data.title
  let date := if isChunk then data.pdf_date else data.date
  let content := if isChunk then data.chunk_text else data.abstract
  let url := data.pdf_url
  { label := if isChunk then "Excerpt" else "Document"
    dateShown := truthyField date
    heading := jsOrString title "Untitled Document"
    bodyText := content.getD ""
    linkUrl := truthyField url }

/-- The three render results of `Source`. -/
inductive SourceView
  | loadingView
  | errorView
  | card (c : SourceCard)
  deriving DecidableEq

/-- Render function of `Source` (lines 50-109): the loading placeholder wins
first, then the failure banner when the error flag is set or the data is
absent (`error || !data`), otherwise the loaded card. -/
def renderSource (collection : String) (st : SourceState) : SourceView :=
  if st.loading then .loadingView
  else if st.error then .errorView
  else match st.data with
    | none => .errorView
    | some d => .card (renderCard collection d)

/-- Data of the worked example in the specification: a chunk with title `T`,
date `2024-01-01` and text `C`. -/
def exampleChunk : SourceData :=
  { pdf_title := some "T", pdf_date := some "2024-01-01", chunk_text := some "C" }

example :
    renderSource "PDFchunks1" (fetchSource (.success (some exampleChunk))) =
      .card { label := "Excerpt", dateShown := some "2024-01-01", heading := "T",
              bodyText := "C", linkUrl := none } := by decide

/-!
Message ids are produced with `Nat.toString`, that is `Nat.repr`. Distinct
clock readings give distinct ids because decimal representation is injective;
this is proved here through `Nat.digits`.
-/

lemma natToString_eq_repr (n : Nat) : toString n = Nat.repr n := rfl

lemma digitChar_injOn (a b : Nat) (ha : a < 10) (hb : b < 10)
    (h : Nat.digitChar a = Nat.digitChar b) : a = b := by
  interval_cases a <;> interval_cases b <;> revert h <;> decide

lemma map_digitChar_inj :
    ∀ l1 l2 : List Nat, (∀ x ∈ l1, x < 10) → (∀ x ∈ l2, x < 10) →
      l1.map Nat.digitChar = l2.map Nat.digitChar → l1 = l2
  | [], [], _, _, _ => rfl
  | [], _ :: _, _, _, h => by simp at h
  | _ :: _, [], _, _, h => by simp at h
  | a :: l1, b :: l2, h1, h2, h => by
      simp only [List.map_cons, List.cons.injEq] at h
      have ha := h1 a (List.mem_cons_self a l1)
      have hb := h2 b (List.mem_cons_self b l2)
      have hab : a = b := digitChar_injOn a b ha hb h.1
      subst hab
      have htl := map_digitChar_inj l1 l2 (fun x hx => h1 x (List.mem_cons_of_mem _ hx))
        (fun x hx => h2 x (List.mem_cons_of_mem _ hx)) h.2
      rw [htl]

lemma toDigitsCore_eq_digits :
    ∀ (f n : Nat) (ds : List Char), n < f → 0 < n →
      Nat.toDigitsCore 10 f n ds = ((Nat.digits 10 n).map Nat.digitChar).reverse ++ ds := by
  intro f
  induction f with
  | zero => intro n ds h _; omega
  | succ f ih =>
    intro n ds hnf hn
    simp only [Nat.toDigitsCore]
    by_cases h10 : n / 10 = 0
    · rw [if_pos h10]
      rw [Nat.digits_def' (by norm_num : (1:ℕ) < 10) hn, h10]
      simp
    · rw [if_neg h10]
      have hdivlt : n / 10 < f := by
        have h1 : n / 10 < n := Nat.div_lt_self hn (by norm_num)
        omega
      rw [ih (n / 10) (Nat.digitChar (n % 10) :: ds) hdivlt (Nat.pos_of_ne_zero h10)]
      rw [Nat.digits_def' (by norm_num : (1:ℕ) < 10) hn]
      simp

lemma toDigits_eq (n : Nat) :
    Nat.toDigits 10 n =
      if n = 0 then ['0'] else ((Nat.digits 10 n).map Nat.digitChar).reverse := by
  by_cases h : n = 0
  · subst h; decide
  · rw [if_neg h]
    have := toDigitsCore_eq_digits (n + 1) n [] (Nat.lt_succ_self n) (Nat.pos_of_ne_zero h)
    simpa [Nat.toDigits] using this

lemma digits_map_eq_zero_char (k : Nat)
    (h1 : (Nat.digits 10 k).map Nat.digitChar = ['0']) : k = 0 := by
  cases hds : Nat.digits 10 k with
  | nil => rw [← Nat.ofDigits_digits 10 k, hds]; rfl
  | cons d tl =>
    rw [hds] at h1
    simp only [List.map_cons, List.cons.injEq] at h1
    have htl : tl = [] := by
      cases tl with
      | nil => rfl
      | cons a b => simp at h1
    have hd10 : d < 10 :=
      Nat.digits_lt_base (by norm_num) (by rw [hds]; exact List.mem_cons_self d tl)
    have hd0 : d = 0 :=
      digitChar_injOn d 0 hd10 (by norm_num) (h1.1.trans (by decide))
    rw [← Nat.ofDigits_digits 10 k, hds, htl, hd0]
    simp [Nat.ofDigits]

lemma natRepr_injective : Function.Injective Nat.repr := by
  intro m n h
  have hd : Nat.toDigits 10 m = Nat.toDigits 10 n := by
    simpa [Nat.repr, List.asString, String.ext_iff] using h
  rw [toDigits_eq, toDigits_eq] at hd
  rcases Nat.eq_zero_or_pos m with hm | hm
  · rcases Nat.eq_zero_or_pos n with hn | hn
    · rw [hm, hn]
    · exfalso
      have hn0 := Nat.pos_iff_ne_zero.mp hn
      rw [if_pos hm, if_neg hn0] at hd
      have h1 : (Nat.digits 10 n).map Nat.digitChar = ['0'] := by
        have := congrArg List.reverse hd; simpa using this.symm
      exact hn0 (digits_map_eq_zero_char n h1)
  · rcases Nat.eq_zero_or_pos n with hn | hn
    · exfalso
      have hm0 := Nat.pos_iff_ne_zero.mp hm
      rw [if_neg hm0, if_pos hn] at hd
      have h1 : (Nat.digits 10 m).map Nat.digitChar = ['0'] := by
        have := congrArg List.reverse hd; simpa using this
      exact hm0 (digits_map_eq_zero_char m h1)
    · rw [if_neg (Nat.pos_iff_ne_zero.mp hm), if_neg (Nat.pos_iff_ne_zero.mp hn)] at hd
      have h1 := List.reverse_injective hd
      have h2 := map_digitChar_inj _ _
        (fun x hx => Nat.digits_lt_base (by norm_num) hx)
        (fun x hx => Nat.digits_lt_base (by norm_num) hx) h1
      rw [← Nat.ofDigits_digits 10 m, ← Nat.ofDigits_digits 10 n, h2]

/-!
Helper lemmas describing one run of `handleSubmit` on the accepted and on the
rejected path; the claim theorems below are all derived from these.
-/

/-- The second message appended by an accepted submit: the assistant message
on success, the apology message on any failure. -/
def assistantOf (now2 : Nat) : FetchOutcome → Message
  | .success data => mkAssistantMessage now2 data
  | _ => mkErrorMessage now2

lemma assistantOf_id (now2 : Nat) (o : FetchOutcome) :
    (assistantOf now2 o).id = Nat.repr (now2 + 1) := by
  cases o <;> rfl

lemma handleSubmit_rejected (st : ChatState) (now now2 : Nat) (outcome : FetchOutcome)
    (hrej : submitRejected st = true) :
    handleSubmit st now now2 outcome = (st, none) := by
  simp [handleSubmit, submitStart, hrej]

lemma handleSubmit_accepted (st : ChatState) (now now2 : Nat) (outcome : FetchOutcome)
    (hrej : submitRejected st = false) :
    (handleSubmit st now now2 outcome).1.messages =
      st.messages ++ [mkUserMessage now st.input, assistantOf now2 outcome] ∧
    (handleSubmit st now now2 outcome).1.input = "" ∧
    (handleSubmit st now now2 outcome).1.isLoading = false ∧
    (handleSubmit st now now2 outcome).2 =
      some (toWire (st.messages ++ [mkUserMessage now st.input])) := by
  cases outcome <;>
    simp [handleSubmit, submitStart, hrej, submitFinish, assistantOf, List.append_assoc]

/-- Sequence of `Date.now` readings that become message ids in a session:
each interaction contributes its submit reading and its response reading plus
one. -/
def sessionIds : List SubmitEvent → List Nat
  | [] => []
  | e :: rest => e.tSubmit :: (e.tResp + 1) :: sessionIds rest

/-- Clock discipline under which the generated ids cannot collide: readings
never decrease during a request, and each later submit reads at least two
past the previous response. -/
def wellSpaced : Nat → List SubmitEvent → Bool
  | _, [] => true
  | lo, e :: rest =>
      decide (lo ≤ e.tSubmit) && decide (e.tSubmit ≤ e.tResp) && wellSpaced (e.tResp + 2) rest

lemma runEvent_ids (st : ChatState) (e : SubmitEvent)
    (hacc : jsTrim e.text ≠ "") (hload : st.isLoading = false) :
    (runEvent st e).messages.map Message.id =
      st.messages.map Message.id ++ [Nat.repr e.tSubmit, Nat.repr (e.tResp + 1)] ∧
    (runEvent st e).isLoading = false := by
  have hrej : submitRejected { st with input := e.text } = false := by
    simp [submitRejected, hacc, hload]
  obtain ⟨h1, -, h3, -⟩ :=
    handleSubmit_accepted { st with input := e.text } e.tSubmit e.tResp e.outcome hrej
  refine ⟨?_, h3⟩
  show (handleSubmit { st with input := e.text } e.tSubmit e.tResp e.outcome).1.messages.map
    Message.id = _
  rw [h1]
  simp [assistantOf_id, mkUserMessage, natToString_eq_repr]

lemma runSession_ids :
    ∀ (evs : List SubmitEvent) (st : ChatState),
      (∀ e ∈ evs, jsTrim e.text ≠ "") → st.isLoading = false →
      (evs.foldl runEvent st).messages.map Message.id =
        st.messages.map Message.id ++ (sessionIds evs).map Nat.repr ∧
      (evs.foldl runEvent st).isLoading = false
  | [], st, _, hload => by simp [sessionIds, hload]
  | e :: rest, st, hacc, hload => by
      obtain ⟨h1, h2⟩ := runEvent_ids st e (hacc e (List.mem_cons_self e rest)) hload
      obtain ⟨h3, h4⟩ := runSession_ids rest (runEvent st e)
        (fun x hx => hacc x (List.mem_cons_of_mem _ hx)) h2
      refine ⟨?_, by simpa using h4⟩
      rw [List.foldl_cons, h3, h1]
      simp [sessionIds, List.append_assoc]

lemma sessionIds_pairwise :
    ∀ (lo : Nat) (evs : List SubmitEvent), wellSpaced lo evs = true →
      (sessionIds evs).Pairwise (· < ·) ∧ ∀ x ∈ sessionIds evs, lo ≤ x
  | _, [], _ => by simp [sessionIds]
  | lo, e :: rest, h => by
      simp only [wellSpaced, Bool.and_eq_true, decide_eq_true_eq] at h
      obtain ⟨⟨h1, h2⟩, h3⟩ := h
      obtain ⟨hp, hb⟩ := sessionIds_pairwise (e.tResp + 2) rest h3
      constructor
      · simp only [sessionIds, List.pairwise_cons]
        refine ⟨?_, ?_, hp⟩
        · intro x hx
          rcases List.mem_cons.mp hx with rfl | hx
          · omega
          · have := hb x hx; omega
        · intro x hx; have := hb x hx; omega
      · intro x hx
        simp only [sessionIds, List.mem_cons] at hx
        rcases hx with rfl | rfl | hx
        · omega
        · omega
        · have := hb x hx; omega

/-!
Claim theorems.
-/

/-- C1: for every non-empty, non-whitespace input submitted while not busy,
one run of `handleSubmit` appends exactly one user message and then exactly
one assistant message, on the success and on the failure path alike, so the
message list grows by exactly two and changes in no other way. -/
theorem submit_appends_exactly_two (st : ChatState) (now now2 : Nat)
    (outcome : FetchOutcome)
    (hinput : jsTrim st.input ≠ "") (hbusy : st.isLoading = false) :
    (handleSubmit st now now2 outcome).1.messages =
      st.messages ++ [mkUserMessage now st.input, assistantOf now2 outcome] ∧
    (mkUserMessage now st.input).role = .user ∧
    (assistantOf now2 outcome).role = .assistant ∧
    (handleSubmit st now now2 outcome).1.messages.length = st.messages.length + 2 := by
  have hrej : submitRejected st = false := by simp [submitRejected, hinput, hbusy]
  obtain ⟨h1, -, -, -⟩ := handleSubmit_accepted st now now2 outcome hrej
  refine ⟨h1, rfl, ?_, by rw [h1]; simp⟩
  cases outcome <;> rfl

/-- Concrete chat state used by several witnesses: no prior messages, the
input holds text with surrounding whitespace, and the busy flag is clear. -/
def chatStateW : ChatState := { messages := [], input := " hi ", isLoading := false }

/-- Witness for C1 at a concrete state and failure outcome. -/
theorem submit_appends_exactly_two_witness :
    jsTrim chatStateW.input ≠ "" ∧ chatStateW.isLoading = false ∧
    (handleSubmit chatStateW 3 4 .httpError).1.messages.length =
      chatStateW.messages.length + 2 :=
  ⟨by decide, rfl, (submit_appends_exactly_two chatStateW 3 4 .httpError (by decide) rfl).2.2.2⟩

/-- C5: when the trimmed input is empty or the busy flag is set, submitting
is a no-op: the message list, the input field and the busy flag are left
unchanged and no request is issued. -/
theorem submit_rejected_noop (st : ChatState) (now now2 : Nat) (outcome : FetchOutcome)
    (h : jsTrim st.input = "" ∨ st.isLoading = true) :
    handleSubmit st now now2 outcome = (st, none) := by
  apply handleSubmit_rejected
  rcases h with h | h <;> simp [submitRejected, h]

/-- Witness for C5 at a whitespace-only input. -/
theorem submit_rejected_noop_witness :
    (jsTrim (ChatState.mk [] "   " false).input = "" ∨
      (ChatState.mk [] "   " false).isLoading = true) ∧
    handleSubmit (ChatState.mk [] "   " false) 9 10 .networkError =
      (ChatState.mk [] "   " false, none) :=
  ⟨Or.inl (by decide), submit_rejected_noop _ 9 10 .networkError (Or.inl (by decide))⟩

/-- C4: on a failed request (thrown fetch or non-ok status) exactly one
assistant message is appended after the user message; it carries the fixed
apology content and no sources, so the raw error never reaches the list, and
the busy flag ends cleared on this path just as on the success path. -/
theorem submit_failure_apology (st : ChatState) (now now2 : Nat) (outcome : FetchOutcome)
    (hinput : jsTrim st.input ≠ "") (hbusy : st.isLoading = false)
    (hfail : outcome = .networkError ∨ outcome = .httpError) :
    (handleSubmit st now now2 outcome).1.messages =
      st.messages ++ [mkUserMessage now st.input, mkErrorMessage now2] ∧
    (mkErrorMessage now2).content = apologyMessage ∧
    (mkErrorMessage now2).sources = none ∧
    (handleSubmit st now now2 outcome).1.isLoading = false ∧
    ∀ data, (handleSubmit st now now2 (.success data)).1.isLoading = false := by
  have hrej : submitRejected st = false := by simp [submitRejected, hinput, hbusy]
  obtain ⟨h1, -, h3, -⟩ := handleSubmit_accepted st now now2 outcome hrej
  refine ⟨?_, rfl, rfl, h3,
    fun data => (handleSubmit_accepted st now now2 (.success data) hrej).2.2.1⟩
  rw [h1]; rcases hfail with h | h <;> subst h <;> rfl

/-- Witness for C4 at a concrete state and a network error. -/
theorem submit_failure_apology_witness :
    jsTrim chatStateW.input ≠ "" ∧ chatStateW.isLoading = false ∧
    (FetchOutcome.networkError = FetchOutcome.networkError ∨
      FetchOutcome.networkError = FetchOutcome.httpError) ∧
    (handleSubmit chatStateW 3 4 .networkError).1.messages =
      chatStateW.messages ++ [mkUserMessage 3 chatStateW.input, mkErrorMessage 4] :=
  ⟨by decide, rfl, Or.inl rfl,
    (submit_failure_apology chatStateW 3 4 .networkError (by decide) rfl (Or.inl rfl)).1⟩

/-- C3 amended: on success the appended assistant message has content equal
to the `response` field whenever that field is present and nonempty, and the
fixed fallback exactly when the field is absent or the empty string (both
falsy in the source); its sources are the `sources` field, or the empty
sequence when that field is absent. -/
theorem submit_success_content (st : ChatState) (now now2 : Nat) (data : ChatResponse)
    (hinput : jsTrim st.input ≠ "") (hbusy : st.isLoading = false) :
    (handleSubmit st now now2 (.success data)).1.messages =
      st.messages ++ [mkUserMessage now st.input, mkAssistantMessage now2 data] ∧
    (∀ s, data.response = some s → s ≠ "" → (mkAssistantMessage now2 data).content = s) ∧
    ((data.response = none ∨ data.response = some "") →
      (mkAssistantMessage now2 data).content = noAnswerFallback) ∧
    (mkAssistantMessage now2 data).sources = some (data.sources.getD []) := by
  have hrej : submitRejected st = false := by simp [submitRejected, hinput, hbusy]
  obtain ⟨h1, -, -, -⟩ := handleSubmit_accepted st now now2 (.success data) hrej
  refine ⟨h1, ?_, ?_, rfl⟩
  · intro s hs hne; simp [mkAssistantMessage, jsOrString, hs, hne]
  · rintro (h | h) <;> simp [mkAssistantMessage, jsOrString, h]

/-- Witness for C3 at a response with no `response` field. -/
theorem submit_success_content_witness :
    jsTrim chatStateW.input ≠ "" ∧ chatStateW.isLoading = false ∧
    (mkAssistantMessage 4 (ChatResponse.mk none none)).content = noAnswerFallback :=
  ⟨by decide, rfl,
    (submit_success_content chatStateW 3 4 (ChatResponse.mk none none)
      (by decide) rfl).2.2.1 (Or.inl rfl)⟩

/-- C3 counterexample: a response whose `response` field is present but the
empty string still yields the fallback content, so the fallback is not taken
exactly when the field is absent. -/
theorem submit_success_content_cex :
    (ChatResponse.mk (some "") none).response = some "" ∧
    (handleSubmit (ChatState.mk [] "hi" false) 0 1
        (.success (ChatResponse.mk (some "") none))).1.messages.map Message.content =
      ["hi", noAnswerFallback] ∧
    noAnswerFallback ≠ "" := by decide

/-- C7: an accepted submit issues exactly one request, whose body is the
entire ordered history including the just-appended user message, each entry
reduced to exactly the pair of role and content. -/
theorem submit_request_body (st : ChatState) (now now2 : Nat) (outcome : FetchOutcome)
    (hinput : jsTrim st.input ≠ "") (hbusy : st.isLoading = false) :
    (handleSubmit st now now2 outcome).2 =
      some (toWire (st.messages ++ [mkUserMessage now st.input])) := by
  have hrej : submitRejected st = false := by simp [submitRejected, hinput, hbusy]
  exact (handleSubmit_accepted st now now2 outcome hrej).2.2.2

/-- Witness for C7 at a concrete state. -/
theorem submit_request_body_witness :
    jsTrim chatStateW.input ≠ "" ∧ chatStateW.isLoading = false ∧
    (handleSubmit chatStateW 3 4 (.success (ChatResponse.mk (some "ok") none))).2 =
      some (toWire (chatStateW.messages ++ [mkUserMessage 3 chatStateW.input])) :=
  ⟨by decide, rfl,
    submit_request_body chatStateW 3 4 (.success (ChatResponse.mk (some "ok") none))
      (by decide) rfl⟩

/-- C6: every operation on the `Chat` state either leaves the message list
unchanged or extends it at the end, so messages already in the list are
never mutated or removed within a session. -/
theorem messages_append_only (st : ChatState) (a : ChatAction) :
    ∃ tail, (chatStep st a).messages = st.messages ++ tail := by
  cases a with
  | typeInput s => exact ⟨[], by simp [chatStep]⟩
  | submit now now2 outcome =>
    by_cases hrej : submitRejected st = true
    · exact ⟨[], by simp [chatStep, handleSubmit_rejected st now now2 outcome hrej]⟩
    · have hrej2 : submitRejected st = false := by simpa using hrej
      exact ⟨[mkUserMessage now st.input, assistantOf now2 outcome],
        (handleSubmit_accepted st now now2 outcome hrej2).1⟩

/-- C8: the resolver starts in the loading view; once the fetch settles it is
in the error view exactly on a thrown fetch, a non-ok status or an absent
body, in the loaded-card view exactly on a success with a body, and never
back in the loading view; every outcome is mapped totally, so a failed fetch
raises nothing. -/
theorem source_three_states (collection : String) (outcome : SourceFetchOutcome) :
    renderSource collection sourceInit = .loadingView ∧
    (renderSource collection (fetchSource outcome) = .errorView ↔
      outcome = .networkError ∨ outcome = .httpError ∨ outcome = .success none) ∧
    ((∃ c, renderSource collection (fetchSource outcome) = .card c) ↔
      ∃ d, outcome = .success (some d)) ∧
    renderSource collection (fetchSource outcome) ≠ .loadingView := by
  refine ⟨rfl, ?_, ?_, ?_⟩ <;>
    rcases outcome with _ | _ | (_ | d) <;>
      simp [renderSource, fetchSource]

/-- C2 amended: the displayed fields are selected solely by comparing the
collection with the sentinel `PDFchunks1` — label `Excerpt` reading
`pdf_title`/`pdf_date`/`chunk_text` when equal, label `Document` reading
`title`/`date`/`abstract` otherwise; the link target is read from `pdf_url`
identically in both modes, and the link is rendered iff that field is
present and nonempty. -/
theorem card_field_selection (collection : String) (data : SourceData) :
    (renderCard collection data).label =
      (if collection = "PDFchunks1" then "Excerpt" else "Document") ∧
    (renderCard collection data).heading =
      jsOrString (if collection = "PDFchunks1" then data.pdf_title else data.title)
        "Untitled Document" ∧
    (renderCard collection data).dateShown =
      truthyField (if collection = "PDFchunks1" then data.pdf_date else data.date) ∧
    (renderCard collection data).bodyText =
      (if collection = "PDFchunks1" then data.chunk_text else data.abstract).getD "" ∧
    (renderCard collection data).linkUrl = truthyField data.pdf_url ∧
    ((renderCard collection data).linkUrl ≠ none ↔
      data.pdf_url ≠ none ∧ data.pdf_url ≠ some "") := by
  refine ⟨rfl, rfl, rfl, rfl, rfl, ?_⟩
  rcases h : data.pdf_url with _ | s
  · simp [renderCard, truthyField, h]
  · by_cases hs : s = "" <;> simp [renderCard, truthyField, h, hs]

/-- Data with a present but empty `pdf_url`, used to refute the
rendered-iff-present reading of the link field. -/
def emptyUrlData : SourceData := { pdf_url := some "" }

/-- C2 counterexample: with `pdf_url` present but equal to the empty string
the loaded card does not render the link, so the link is not rendered
whenever the field is present. -/
theorem card_link_cex :
    emptyUrlData.pdf_url.isSome = true ∧
    (renderCard "Papers" emptyUrlData).linkUrl = none := by decide

/-- C10: when the selected title (`pdf_title` in chunk mode, `title`
otherwise) is absent or empty, the heading renders the fixed fallback
`Untitled Document` rather than blank, while an absent selected body renders
as blank. -/
theorem card_heading_fallback (collection : String) (data : SourceData)
    (hsel : (if collection = "PDFchunks1" then data.pdf_title else data.title) = none ∨
      (if collection = "PDFchunks1" then data.pdf_title else data.title) = some "") :
    (renderCard collection data).heading = "Untitled Document" ∧
    ((if collection = "PDFchunks1" then data.chunk_text else data.abstract) = none →
      (renderCard collection data).bodyText = "") := by
  constructor
  · show jsOrString (if collection = "PDFchunks1" then data.pdf_title else data.title)
      "Untitled Document" = "Untitled Document"
    rcases hsel with h | h <;> rw [h] <;> simp [jsOrString]
  · intro hbody
    show (if collection = "PDFchunks1" then data.chunk_text else data.abstract).getD "" = ""
    rw [hbody]; rfl

/-- Record with no title but a present body, used by the C10 witness. -/
def noTitleData : SourceData := { abstract := some "A" }

/-- Witness for C10 in document mode: the title is absent while the body is
present, and the heading still falls back. -/
theorem card_heading_fallback_witness :
    ((if "X" = "PDFchunks1" then noTitleData.pdf_title else noTitleData.title) = none ∨
      (if "X" = "PDFchunks1" then noTitleData.pdf_title else noTitleData.title) = some "") ∧
    (renderCard "X" noTitleData).heading = "Untitled Document" :=
  ⟨Or.inl (by decide), (card_heading_fallback "X" noTitleData (Or.inl (by decide))).1⟩

/-- Trace with a monotone millisecond clock in which the response reading 100
is followed by a submit reading 101, minting the id `101` twice. -/
def collidingTrace : List SubmitEvent :=
  [⟨"hi", 100, 100, .success ⟨some "a", none⟩⟩,
   ⟨"yo", 101, 101, .success ⟨some "b", none⟩⟩]

/-- C9 counterexample: a session whose clock readings never decrease can
still mint two messages with the same id, so ids are not unique for every
sequence of submits and responses. -/
theorem message_ids_cex :
    collidingTrace.map SubmitEvent.tSubmit = [100, 101] ∧
    collidingTrace.map SubmitEvent.tResp = [100, 101] ∧
    ¬ ((runSession collidingTrace).messages.map Message.id).Nodup := by decide

/-- C9 amended: every message created in a session receives an id unique in
the list provided the clock readings are well spaced — never decreasing
inside a request and advancing by at least two between a response and the
next submit (readings one apart can collide, as the counterexample shows). -/
theorem message_ids_unique (evs : List SubmitEvent)
    (haccept : ∀ e ∈ evs, jsTrim e.text ≠ "")
    (hspaced : wellSpaced 0 evs = true) :
    ((runSession evs).messages.map Message.id).Nodup := by
  obtain ⟨hids, -⟩ := runSession_ids evs chatInit haccept rfl
  rw [runSession, hids]
  simp only [chatInit, List.map_nil, List.nil_append]
  have hp := (sessionIds_pairwise 0 evs hspaced).1
  exact List.Nodup.map natRepr_injective (hp.imp Nat.ne_of_lt)

/-- Trace used by the uniqueness witness: two interactions whose readings are
spaced at least two apart. -/
def spacedTrace : List SubmitEvent :=
  [⟨"hi", 1, 2, .networkError⟩, ⟨"yo", 4, 9, .success ⟨none, none⟩⟩]

/-- Witness for the amended C9 on a concrete well-spaced trace. -/
theorem message_ids_unique_witness :
    (∀ e ∈ spacedTrace, jsTrim e.text ≠ "") ∧ wellSpaced 0 spacedTrace = true ∧
    ((runSession spacedTrace).messages.map Message.id).Nodup :=
  ⟨by decide, by decide, message_ids_unique spacedTrace (by decide) (by decide)⟩
